import Mathlib

/-!
Verification development for the PM4 command-stream processor found in
src/video_core/amdgpu/liverpool.cpp of the shadPS4 repository.  The
decoder is embedded shallowly: a command buffer is a function from word
index to 32-bit word value together with a byte length, the register
file and guest memory are functions from addresses to word values, and
every collaborator call (rasterizer draw, flip interrupt, fence signal,
guest-memory write) is recorded in an effect trace.  The packet
structure declarations live in headers (pm4_cmds.h, liverpool.h) that
are not part of the sources, so field layouts and constants are
modelled from the specification where the doc comments say so.
-/

-- ===== Header word field extraction =====

/-- Modelled from the spec: the packet type discriminant of the header
word, bits 30 to 31, as declared in pm4_cmds.h which is absent from the
sources.  Only type 3 is defined. -/
def hdrType (w : Nat) : Nat := w / 1073741824 % 4

/-- Modelled from the spec: the opcode field of a type 3 header word,
bits 8 to 15, as declared in pm4_cmds.h which is absent from the
sources. -/
def hdrOpcode (w : Nat) : Nat := w / 256 % 256

/-- Modelled from the spec: the payload word count field of a type 3
header word, bits 16 to 29, as declared in pm4_cmds.h which is absent
from the sources. -/
def hdrCount (w : Nat) : Nat := w / 65536 % 16384

/-- Modelled from the spec: the NumWords accessor of the type 3 header,
the number of payload words of the packet, equal to the count field
plus one.  Declared in pm4_cmds.h which is absent from the sources; the
decoder in liverpool.cpp advances the cursor by NumWords plus one words
per packet and sizes register runs as NumWords minus one. -/
def numWords (w : Nat) : Nat := hdrCount w + 1

/-- Builds a type 3 header word with the given opcode and count field. -/
def mkType3 (op cnt : Nat) : Nat := 3221225472 + cnt * 65536 + op * 256

-- ===== Opcode values =====

/-- Modelled from the spec: IT opcode value of the no-op packet,
declared in pm4_cmds.h which is absent from the sources. -/
def opNop : Nat := 0x10

/-- Modelled from the spec: IT opcode value of the dispatch-direct
packet. -/
def opDispatchDirect : Nat := 0x15

/-- Modelled from the spec: IT opcode value of the draw-index packet
handled by the DrawIndex2 case. -/
def opDrawIndex2 : Nat := 0x27

/-- Modelled from the spec: IT opcode value of the index-type packet. -/
def opIndexType : Nat := 0x2A

/-- Modelled from the spec: IT opcode value of the draw-index-auto
packet. -/
def opDrawIndexAuto : Nat := 0x2D

/-- Modelled from the spec: IT opcode value of the write-data packet. -/
def opWriteData : Nat := 0x37

/-- Modelled from the spec: IT opcode value of the wait-reg-mem
packet. -/
def opWaitRegMem : Nat := 0x3C

/-- Modelled from the spec: IT opcode value of the end-of-pipe
event-write packet. -/
def opEventWriteEop : Nat := 0x47

/-- Modelled from the spec: IT opcode value of the end-of-shader
event-write packet. -/
def opEventWriteEos : Nat := 0x48

/-- Modelled from the spec: IT opcode value of the DMA-data packet. -/
def opDmaData : Nat := 0x50

/-- Modelled from the spec: IT opcode value of the acquire-mem
packet. -/
def opAcquireMem : Nat := 0x58

/-- Modelled from the spec: IT opcode value of the set-context-register
packet. -/
def opSetContextReg : Nat := 0x69

/-- Modelled from the spec: IT opcode value of the set-sh-register
packet. -/
def opSetShReg : Nat := 0x76

/-- Modelled from the spec: IT opcode value of the set-uconfig-register
packet. -/
def opSetUconfigReg : Nat := 0x79

/-- The set of opcodes the decoder in liverpool.cpp has an explicit
case for; every other opcode falls to the fatal default case. -/
def KnownOpcode (op : Nat) : Prop :=
  op = opNop ∨ op = opSetContextReg ∨ op = opSetShReg ∨ op = opSetUconfigReg ∨
  op = opIndexType ∨ op = opDrawIndex2 ∨ op = opDrawIndexAuto ∨ op = opDispatchDirect ∨
  op = opEventWriteEos ∨ op = opEventWriteEop ∨ op = opDmaData ∨ op = opWriteData ∨
  op = opAcquireMem ∨ op = opWaitRegMem

instance (op : Nat) : Decidable (KnownOpcode op) := by
  unfold KnownOpcode
  infer_instance

-- ===== Register file base offsets and constants =====

/-- Modelled from the spec: base word offset of the context register
range inside the flat register array, declared in liverpool.h which is
absent from the sources. -/
def ContextRegWordOffset : Nat := 0xA000

/-- Modelled from the spec: base word offset of the shader register
range. -/
def ShRegWordOffset : Nat := 0x2C00

/-- Modelled from the spec: base word offset of the user-config
register range. -/
def UconfigRegWordOffset : Nat := 0xC000

/-- Modelled from the spec: the reserved flip-marker payload value of
the no-op packet, declared as PM4CmdNop PayloadType PatchedFlip in
pm4_cmds.h which is absent from the sources.  The properties proved
below depend only on this being one distinguished constant, not on its
numeric value. -/
def patchedFlipMarker : Nat := 0xBAD0F00D

-- ===== Data model =====

/-- The register file of the processor: the flat word array targeted by
the set-register packets, plus the dedicated fixed-function fields the
draw packets write, mirroring the regs member used by liverpool.cpp.
The split low and high address halves mirror the base_addr_lo and
base_addr_hi fields of the index base address register. -/
structure Regs where
  reg_array : Nat → Nat
  index_buffer_type : Nat
  max_index_size : Nat
  index_base_addr_lo : Nat
  index_base_addr_hi : Nat
  num_indices : Nat
  draw_initiator : Nat

/-- One observable collaborator interaction performed while decoding. -/
inductive Effect where
  | flip : Effect
  | drawIndex : Effect
  | fenceEos : Effect
  | fenceEop : Effect
  | memWrite (addr n : Nat) : Effect
deriving DecidableEq

/-- A fatal decode condition: every constructor corresponds to an
UNREACHABLE or failed ASSERT in liverpool.cpp, except waitRegMemStall,
which represents the wait-reg-mem busy loop spinning forever on a
predicate that is false for the current static memory. -/
inductive Err where
  | invalidType (t : Nat) : Err
  | unknownOpcode (op : Nat) : Err
  | writeDataBadDstSel : Err
  | writeDataSingleAddr : Err
  | waitRegMemBadEngine : Err
  | waitRegMemBadFunction : Err
  | waitRegMemStall : Err
deriving DecidableEq

/-- The mutable state visible to the decoder: the register file, guest
memory (word addressed), and the trace of collaborator effects. -/
structure GpuState where
  regs : Regs
  mem : Nat → Nat
  effects : List Effect

/-- The all-zero initial state. -/
def initGpu : GpuState :=
  ⟨⟨fun _ => 0, 0, 0, 0, 0, 0, 0⟩, fun _ => 0, []⟩

/-- Word-granular embedding of memcpy: copies n words read from src
starting at srcBase into dst starting at dstBase. -/
def copyWords (dst : Nat → Nat) (dstBase : Nat) (src : Nat → Nat) (srcBase n : Nat) :
    Nat → Nat :=
  fun a => if dstBase ≤ a ∧ a < dstBase + n then src (srcBase + (a - dstBase)) else dst a

/-- Modelled from the spec: the Test predicate of the wait-reg-mem
packet, declared in pm4_cmds.h which is absent from the sources: the
memory value is masked and compared with the reference immediate using
the comparison selected by the 3-bit function field (always, less,
less-equal, equal, not-equal, greater-equal, greater); the remaining
encoding is undefined. -/
def wrmTest (fn mask ref v : Nat) : Option Bool :=
  if fn = 0 then some true
  else if fn = 1 then some (decide (Nat.land v mask < ref))
  else if fn = 2 then some (decide (Nat.land v mask ≤ ref))
  else if fn = 3 then some (decide (Nat.land v mask = ref))
  else if fn = 4 then some (decide (¬ Nat.land v mask = ref))
  else if fn = 5 then some (decide (ref ≤ Nat.land v mask))
  else if fn = 6 then some (decide (ref < Nat.land v mask))
  else none

-- ===== Packet decode =====

/-- One type 3 packet dispatch, the inner switch of ProcessCmdList in
liverpool.cpp lines 64 to 173, translated case by case.  The payload
word i of the packet at word position pos is buf (pos + i).  The
wait-reg-mem case is evaluated against the current (static) guest
memory: a predicate that is false would spin forever in the source, so
it is represented by the waitRegMemStall error; the iterated polling
behaviour is modelled separately by waitLoop. -/
def decodeType3 (rast : Bool) (buf : Nat → Nat) (s : GpuState) (pos : Nat) :
    Except Err GpuState :=
  if hdrOpcode (buf pos) = opNop then
    if hdrCount (buf pos) = 0 then .ok s
    else if buf (pos + 1) = patchedFlipMarker then
      .ok { s with effects := s.effects ++ [Effect.flip] }
    else .ok s
  else if hdrOpcode (buf pos) = opSetContextReg then
    .ok { s with regs := { s.regs with
      reg_array := copyWords s.regs.reg_array
        (ContextRegWordOffset + buf (pos + 1) % 65536) buf (pos + 2)
        (numWords (buf pos) - 1) } }
  else if hdrOpcode (buf pos) = opSetShReg then
    .ok { s with regs := { s.regs with
      reg_array := copyWords s.regs.reg_array
        (ShRegWordOffset + buf (pos + 1) % 65536) buf (pos + 2)
        (numWords (buf pos) - 1) } }
  else if hdrOpcode (buf pos) = opSetUconfigReg then
    .ok { s with regs := { s.regs with
      reg_array := copyWords s.regs.reg_array
        (UconfigRegWordOffset + buf (pos + 1) % 65536) buf (pos + 2)
        (numWords (buf pos) - 1) } }
  else if hdrOpcode (buf pos) = opIndexType then
    .ok { s with regs := { s.regs with index_buffer_type := buf (pos + 1) } }
  else if hdrOpcode (buf pos) = opDrawIndex2 then
    .ok { s with
      regs := { s.regs with
        max_index_size := buf (pos + 1),
        index_base_addr_lo := buf (pos + 2),
        index_base_addr_hi := buf (pos + 3),
        num_indices := buf (pos + 4),
        draw_initiator := buf (pos + 5) },
      effects := if rast then s.effects ++ [Effect.drawIndex] else s.effects }
  else if hdrOpcode (buf pos) = opDrawIndexAuto then
    .ok { s with regs := { s.regs with
      num_indices := buf (pos + 1),
      draw_initiator := buf (pos + 2) } }
  else if hdrOpcode (buf pos) = opDispatchDirect then .ok s
  else if hdrOpcode (buf pos) = opEventWriteEos then
    .ok { s with effects := s.effects ++ [Effect.fenceEos] }
  else if hdrOpcode (buf pos) = opEventWriteEop then
    .ok { s with effects := s.effects ++ [Effect.fenceEop] }
  else if hdrOpcode (buf pos) = opDmaData then .ok s
  else if hdrOpcode (buf pos) = opWriteData then
    if buf (pos + 1) / 256 % 16 = 2 ∨ buf (pos + 1) / 256 % 16 = 5 then
      if buf (pos + 1) / 65536 % 2 = 0 then
        .ok { s with
          mem := copyWords s.mem (buf (pos + 2) + buf (pos + 3) * 4294967296) buf (pos + 4)
            ((hdrCount (buf pos) + 4294967294) % 4294967296 * 4 % 4294967296 / 4),
          effects := s.effects ++ [Effect.memWrite
            (buf (pos + 2) + buf (pos + 3) * 4294967296)
            ((hdrCount (buf pos) + 4294967294) % 4294967296 * 4 % 4294967296 / 4)] }
      else .error Err.writeDataSingleAddr
    else .error Err.writeDataBadDstSel
  else if hdrOpcode (buf pos) = opAcquireMem then .ok s
  else if hdrOpcode (buf pos) = opWaitRegMem then
    if buf (pos + 1) / 256 % 4 = 0 then
      match wrmTest (buf (pos + 1) % 8) (buf (pos + 5)) (buf (pos + 4))
          (s.mem (buf (pos + 2) + buf (pos + 3) * 4294967296)) with
      | some true => .ok s
      | some false => .error Err.waitRegMemStall
      | none => .error Err.waitRegMemBadFunction
    else .error Err.waitRegMemBadEngine
  else .error (Err.unknownOpcode (hdrOpcode (buf pos)))

/-- One full packet decode step: the type dispatch of ProcessCmdList
(line 63, only type 3 is handled; any other type hits UNREACHABLE at
line 178) followed by the uniform cursor advance of line 174, which for
every type 3 packet is NumWords plus one words. -/
def decodePacket (rast : Bool) (buf : Nat → Nat) (s : GpuState) (pos : Nat) :
    Except Err (GpuState × Nat) :=
  if hdrType (buf pos) = 3 then
    match decodeType3 rast buf s pos with
    | .error e => .error e
    | .ok s2 => .ok (s2, numWords (buf pos) + 1)
  else .error (Err.invalidType (hdrType (buf pos)))

-- ===== The decode loop =====

/-- The while loop of ProcessCmdList (lines 60 to 183): pos is the word
position of the cursor, 4 * pos the processed byte count, and the loop
runs while the processed bytes are below size.  The fuel argument is an
artifact that bounds the number of iterations; none is returned only on
fuel exhaustion and is proved unreachable once 8 * fuel + 4 * pos
reaches size. -/
def processLoop (rast : Bool) (buf : Nat → Nat) (size : Nat) :
    Nat → GpuState → Nat → Option (Except Err (GpuState × Nat))
  | 0, s, pos =>
    if 4 * pos < size then
      match decodePacket rast buf s pos with
      | .error e => some (.error e)
      | .ok _ => none
    else some (.ok (s, pos))
  | fuel + 1, s, pos =>
    if 4 * pos < size then
      match decodePacket rast buf s pos with
      | .error e => some (.error e)
      | .ok (s2, c) => processLoop rast buf size fuel s2 (pos + c)
    else some (.ok (s, pos))

/-- ProcessCmdList of liverpool.cpp: run the decode loop from position
zero; a fuel of size words is proved sufficient below. -/
def ProcessCmdList (rast : Bool) (buf : Nat → Nat) (size : Nat) (s : GpuState) :
    Option (Except Err (GpuState × Nat)) :=
  processLoop rast buf size size s 0

/-- Whether the packet spans of the buffer tile the byte length
exactly: starting from word position pos, repeatedly advance by the
header-declared span; the buffer is exactly spanned when the cursor
lands on the byte length precisely. -/
def exactSpans (buf : Nat → Nat) (size : Nat) : Nat → Nat → Bool
  | 0, pos => if 4 * pos < size then false else size == 4 * pos
  | fuel + 1, pos =>
    if 4 * pos < size then exactSpans buf size fuel (pos + (numWords (buf pos) + 1))
    else size == 4 * pos

-- ===== The wait-reg-mem polling loop =====

/-- The busy-poll loop of the WaitRegMem case (liverpool.cpp lines 164
to 167) over the sequence of successive memory observations: each list
element is the value read by one Test evaluation; the loop completes at
the first observation whose Test is true and the result counts the
sleeps performed, one after every false evaluation.  none means no
observation in the list satisfied the predicate, so within that
sequence the loop has not completed. -/
def waitLoop (fn mask ref : Nat) : List Nat → Option Nat
  | [] => none
  | v :: rest =>
    if wrmTest fn mask ref v = some true then some 0
    else (waitLoop fn mask ref rest).map (· + 1)

/-- The WaitRegMem handler over an observation sequence: the engine
field (bits 8 to 9 of the first payload word) must equal the graphics
engine value Me, which is zero; otherwise the ASSERT at line 163 is a
fatal error.  Then the poll loop runs. -/
def waitRegMemHandler (w1 mask ref : Nat) (vals : List Nat) : Except Err (Option Nat) :=
  if w1 / 256 % 4 = 0 then .ok (waitLoop (w1 % 8) mask ref vals)
  else .error Err.waitRegMemBadEngine

-- ===== The processing thread loop and shutdown =====

/-- Outcome of one iteration of the Process loop of liverpool.cpp
(lines 22 to 47) as observed at its check points. -/
inductive LoopStep (α : Type) where
  | stopped : LoopStep α
  | dequeue (b : α) (rest : List α) : LoopStep α
  | blocked : LoopStep α
deriving DecidableEq

/-- The wake-up condition of the cv_submit wait at line 27: a
stop-token condition-variable wait returns when the predicate (ring not
empty) holds or the stop request is latched. -/
def cvWaitDone {α : Type} (stop : Bool) (ring : List α) : Bool :=
  stop || !ring.isEmpty

/-- One iteration of the Process loop with the stop flag as observed at
its check points (the while condition at line 23 and the re-check at
line 29, both before the dequeue at lines 33 to 34): with stop latched
the iteration terminates; otherwise it dequeues the front buffer when
one is present and blocks when the ring is empty. -/
def processStep {α : Type} (stop : Bool) (ring : List α) : LoopStep α :=
  if stop then .stopped
  else
    match ring with
    | [] => .blocked
    | b :: rest => .dequeue b rest

-- ===== Concrete buffers used by witnesses =====

/-- A one-word buffer holding a single no-op header whose packet span
(two words, eight bytes) exceeds the four-byte buffer length. -/
def c1buf : Nat → Nat := fun _ => mkType3 opNop 0

/-- A buffer of four no-op packets spanning exactly sixteen bytes. -/
def bufC1w : Nat → Nat := fun _ => mkType3 opNop 0

/-- A draw-index packet: header and five payload words. -/
def bufC2 : Nat → Nat
  | 0 => mkType3 opDrawIndex2 4
  | 1 => 100
  | 2 => 200
  | 3 => 300
  | 4 => 400
  | 5 => 500
  | _ => 0

/-- A set-context-register packet with offset 5 and two data words. -/
def bufC3 : Nat → Nat
  | 0 => mkType3 opSetContextReg 2
  | 1 => 5
  | 2 => 11
  | 3 => 22
  | _ => 0

/-- The post-state of decoding bufC3 from the initial state. -/
def c3run : GpuState :=
  match decodePacket true bufC3 initGpu 0 with
  | .ok (s, _) => s
  | .error _ => initGpu

/-- A dispatch-direct packet with count field 3. -/
def bufC4 : Nat → Nat := fun _ => mkType3 opDispatchDirect 3

/-- A write-data packet with destination selector 0, which is
unsupported. -/
def bufC5a : Nat → Nat
  | 0 => mkType3 opWriteData 4
  | 1 => 0
  | _ => 0

/-- A write-data packet with destination selector 5 and the
single-address write mode bit set. -/
def bufC5b : Nat → Nat
  | 0 => mkType3 opWriteData 4
  | 1 => 5 * 256 + 65536
  | _ => 0

/-- A write-data packet with destination selector 2, normal write mode,
count field 4 and two data words. -/
def bufC5c : Nat → Nat
  | 0 => mkType3 opWriteData 4
  | 1 => 2 * 256
  | 2 => 1000
  | 3 => 0
  | 4 => 77
  | 5 => 88
  | _ => 0

/-- A buffer whose header has packet type 0. -/
def bufC6a : Nat → Nat := fun _ => 0

/-- A type 3 buffer with an opcode the decoder has no case for. -/
def bufC6b : Nat → Nat := fun _ => mkType3 0x99 0

/-- A wait-reg-mem packet whose engine field is 1, not the graphics
engine. -/
def bufC7 : Nat → Nat
  | 0 => mkType3 opWaitRegMem 5
  | 1 => 256
  | _ => 0

/-- A no-op header with count field zero, hence no payload access. -/
def bufC9a : Nat → Nat := fun _ => mkType3 opNop 0

/-- A no-op packet whose first payload word is not the flip marker. -/
def bufC9b : Nat → Nat
  | 0 => mkType3 opNop 1
  | 1 => 123
  | _ => 0

/-- A no-op packet whose first payload word is the flip marker. -/
def bufC9c : Nat → Nat
  | 0 => mkType3 opNop 1
  | 1 => patchedFlipMarker
  | _ => 0

/-- A stream of no-op packets used by the termination witness. -/
def bufC10 : Nat → Nat := fun _ => mkType3 opNop 0

-- ===== Helper lemmas =====

/-- The count field of any header word is below 2 to the 14. -/
theorem hdrCount_lt (w : Nat) : hdrCount w < 16384 :=
  Nat.mod_lt _ (by decide)

/-- Every successful packet decode consumes NumWords plus one words,
the uniform cursor advance of liverpool.cpp line 174. -/
theorem decode_consumed {rast : Bool} {buf : Nat → Nat} {s s' : GpuState} {pos c : Nat}
    (h : decodePacket rast buf s pos = .ok (s', c)) : c = numWords (buf pos) + 1 := by
  unfold decodePacket at h
  by_cases h3 : hdrType (buf pos) = 3
  · rw [if_pos h3] at h
    cases hd : decodeType3 rast buf s pos with
    | error e =>
      rw [hd] at h
      exact absurd h (by simp)
    | ok s2 =>
      rw [hd] at h
      injection h with h1
      injection h1 with h2a h2b
      exact h2b.symm
  · rw [if_neg h3] at h
    exact absurd h (by simp)

/-- Reading inside the copied range yields the source word. -/
theorem copyWords_in (dst : Nat → Nat) (dstBase : Nat) (src : Nat → Nat) (srcBase n i : Nat)
    (hi : i < n) :
    copyWords dst dstBase src srcBase n (dstBase + i) = src (srcBase + i) := by
  unfold copyWords
  rw [if_pos ⟨Nat.le_add_right _ _, by omega⟩]
  congr 1
  omega

/-- Reading outside the copied range yields the old destination word. -/
theorem copyWords_out (dst : Nat → Nat) (dstBase : Nat) (src : Nat → Nat) (srcBase n a : Nat)
    (ha : a < dstBase ∨ dstBase + n ≤ a) :
    copyWords dst dstBase src srcBase n a = dst a := by
  unfold copyWords
  rw [if_neg (by omega)]

-- ===== Claim theorems =====

/-- Claim C2: decoding a DrawIndex2 packet sets the five draw registers
(max index size, index base address low and high halves, index count
and the draw initiator) exactly to payload words one through five of
the packet, appends exactly one indexed-draw rasterizer call to the
effect trace, and consumes the header-declared span. -/
theorem c2_draw_index2 (buf : Nat → Nat) (s : GpuState) (pos : Nat)
    (h3 : hdrType (buf pos) = 3) (hop : hdrOpcode (buf pos) = opDrawIndex2) :
    decodePacket true buf s pos =
      .ok (⟨⟨s.regs.reg_array, s.regs.index_buffer_type, buf (pos + 1), buf (pos + 2),
             buf (pos + 3), buf (pos + 4), buf (pos + 5)⟩, s.mem,
            s.effects ++ [Effect.drawIndex]⟩, numWords (buf pos) + 1) := by
  unfold decodePacket decodeType3
  rw [h3, hop]
  rfl

/-- Witness for C2 at a concrete draw-index packet. -/
theorem c2_draw_index2_witness :
    decodePacket true bufC2 initGpu 0 =
      .ok (⟨⟨initGpu.regs.reg_array, initGpu.regs.index_buffer_type, bufC2 (0 + 1),
             bufC2 (0 + 2), bufC2 (0 + 3), bufC2 (0 + 4), bufC2 (0 + 5)⟩, initGpu.mem,
            initGpu.effects ++ [Effect.drawIndex]⟩, numWords (bufC2 0) + 1) :=
  c2_draw_index2 bufC2 initGpu 0 (by decide) (by decide)

/-- Claim C3: decoding a set-context-register packet with destination
offset o (payload word one) and a run of n data words (payload words
two onward, n being NumWords minus one) copies the run contiguously
into the register file starting at the context base plus o, and leaves
every register outside that range unchanged.  The two-word instance of
the claim is the case n equal two. -/
theorem c3_set_context_reg (rast : Bool) (buf : Nat → Nat) (s : GpuState) (pos : Nat)
    (h3 : hdrType (buf pos) = 3) (hop : hdrOpcode (buf pos) = opSetContextReg)
    (s' : GpuState) (c : Nat)
    (hdec : decodePacket rast buf s pos = .ok (s', c)) :
    (∀ i, i < numWords (buf pos) - 1 →
        s'.regs.reg_array (ContextRegWordOffset + buf (pos + 1) % 65536 + i) =
          buf (pos + 2 + i))
  ∧ (∀ a, a < ContextRegWordOffset + buf (pos + 1) % 65536 ∨
          ContextRegWordOffset + buf (pos + 1) % 65536 + (numWords (buf pos) - 1) ≤ a →
        s'.regs.reg_array a = s.regs.reg_array a) := by
  have hs : decodePacket rast buf s pos =
      .ok ({ s with regs := { s.regs with
        reg_array := copyWords s.regs.reg_array
          (ContextRegWordOffset + buf (pos + 1) % 65536) buf (pos + 2)
          (numWords (buf pos) - 1) } }, numWords (buf pos) + 1) := by
    unfold decodePacket decodeType3
    rw [h3, hop]
    rfl
  rw [hs] at hdec
  injection hdec with h1
  injection h1 with h2a h2b
  constructor
  · intro i hi
    rw [← h2a]
    exact copyWords_in _ _ _ _ _ _ hi
  · intro a ha
    rw [← h2a]
    exact copyWords_out _ _ _ _ _ _ ha

/-- Witness for C3 at a concrete packet with offset 5 and data words 11
and 22: the context range receives both words contiguously and a
register outside the range is untouched. -/
theorem c3_set_context_reg_witness :
    c3run.regs.reg_array (ContextRegWordOffset + bufC3 (0 + 1) % 65536 + 0) =
      bufC3 (0 + 2 + 0) ∧
    c3run.regs.reg_array (ContextRegWordOffset + bufC3 (0 + 1) % 65536 + 1) =
      bufC3 (0 + 2 + 1) ∧
    c3run.regs.reg_array 0 = initGpu.regs.reg_array 0 := by
  have h := c3_set_context_reg true bufC3 initGpu 0 (by decide) (by decide) c3run 4 (by rfl)
  exact ⟨h.1 0 (by decide), h.1 1 (by decide), h.2 0 (Or.inl (by decide))⟩

/-- Claim C4: every successfully decoded type 3 packet, the
intentionally unimplemented opcodes included, consumes exactly
(word count plus one) times four bytes, the word count being the
payload word count NumWords declared by the header. -/
theorem c4_consumed_span (rast : Bool) (buf : Nat → Nat) (s s' : GpuState) (pos c : Nat)
    (h : decodePacket rast buf s pos = .ok (s', c)) :
    4 * c = 4 * (numWords (buf pos) + 1) := by
  rw [decode_consumed h]

/-- Witness for C4: a dispatch-direct packet (unimplemented semantics)
with count field 3 consumes five words, twenty bytes. -/
theorem c4_consumed_span_witness : 4 * 5 = 4 * (numWords (bufC4 0) + 1) :=
  c4_consumed_span true bufC4 initGpu initGpu 0 5 (by rfl)

/-- Claim C5: decoding a write-data packet is fatal unless the
destination selector (bits 8 to 11 of payload word one) is 2 or 5;
with a supported selector it is additionally fatal when the
single-address write mode bit (bit 16) is set; otherwise the packet
data words (the count field minus two of them, starting at payload
word four) are copied to the destination address and the write is the
only recorded effect. -/
theorem c5_write_data (rast : Bool) (buf : Nat → Nat) (s : GpuState) (pos : Nat)
    (h3 : hdrType (buf pos) = 3) (hop : hdrOpcode (buf pos) = opWriteData) :
    (¬ (buf (pos + 1) / 256 % 16 = 2 ∨ buf (pos + 1) / 256 % 16 = 5) →
        decodePacket rast buf s pos = .error Err.writeDataBadDstSel)
  ∧ ((buf (pos + 1) / 256 % 16 = 2 ∨ buf (pos + 1) / 256 % 16 = 5) →
      ¬ buf (pos + 1) / 65536 % 2 = 0 →
        decodePacket rast buf s pos = .error Err.writeDataSingleAddr)
  ∧ ((buf (pos + 1) / 256 % 16 = 2 ∨ buf (pos + 1) / 256 % 16 = 5) →
      buf (pos + 1) / 65536 % 2 = 0 → 2 ≤ hdrCount (buf pos) →
        decodePacket rast buf s pos =
          .ok (⟨s.regs,
                copyWords s.mem (buf (pos + 2) + buf (pos + 3) * 4294967296) buf (pos + 4)
                  (hdrCount (buf pos) - 2),
                s.effects ++ [Effect.memWrite
                  (buf (pos + 2) + buf (pos + 3) * 4294967296)
                  (hdrCount (buf pos) - 2)]⟩, numWords (buf pos) + 1)) := by
  have hlt : hdrCount (buf pos) < 16384 := hdrCount_lt (buf pos)
  refine ⟨?_, ?_, ?_⟩
  · intro hsel
    unfold decodePacket decodeType3
    rw [h3, hop, if_neg hsel]
    rfl
  · intro hsel hone
    unfold decodePacket decodeType3
    rw [h3, hop, if_pos hsel, if_neg hone]
    rfl
  · intro hsel hone hc2
    have e1 : (hdrCount (buf pos) + 4294967294) % 4294967296 = hdrCount (buf pos) - 2 := by
      omega
    have e2 : (hdrCount (buf pos) - 2) * 4 % 4294967296 = (hdrCount (buf pos) - 2) * 4 :=
      Nat.mod_eq_of_lt (by omega)
    have e3 : (hdrCount (buf pos) + 4294967294) % 4294967296 * 4 % 4294967296 / 4 =
        hdrCount (buf pos) - 2 := by
      rw [e1, e2]
      omega
    unfold decodePacket decodeType3
    rw [h3, hop, if_pos hsel, if_pos hone, e3]
    rfl

/-- Witness for C5 at three concrete write-data packets: selector 0 is
fatal, selector 5 with the single-address mode is fatal, selector 2
with normal mode copies its two data words. -/
theorem c5_write_data_witness :
    decodePacket true bufC5a initGpu 0 = .error Err.writeDataBadDstSel ∧
    decodePacket true bufC5b initGpu 0 = .error Err.writeDataSingleAddr ∧
    decodePacket true bufC5c initGpu 0 =
      .ok (⟨initGpu.regs,
            copyWords initGpu.mem (bufC5c (0 + 2) + bufC5c (0 + 3) * 4294967296)
              bufC5c (0 + 4) (hdrCount (bufC5c 0) - 2),
            initGpu.effects ++ [Effect.memWrite
              (bufC5c (0 + 2) + bufC5c (0 + 3) * 4294967296)
              (hdrCount (bufC5c 0) - 2)]⟩, numWords (bufC5c 0) + 1) :=
  ⟨(c5_write_data true bufC5a initGpu 0 (by decide) (by decide)).1 (by decide),
   (c5_write_data true bufC5b initGpu 0 (by decide) (by decide)).2.1 (by decide) (by decide),
   (c5_write_data true bufC5c initGpu 0 (by decide) (by decide)).2.2 (by decide) (by decide)
     (by decide)⟩

/-- Claim C6: a packet whose header type is not 3 is a fatal invalid
stream error, and a type 3 packet whose opcode is outside the handled
set is a fatal unknown-opcode error; the decoder never silently skips
either. -/
theorem c6_unknown_fatal :
    (∀ (rast : Bool) (buf : Nat → Nat) (s : GpuState) (pos : Nat),
        ¬ hdrType (buf pos) = 3 →
        decodePacket rast buf s pos = .error (Err.invalidType (hdrType (buf pos))))
  ∧ (∀ (rast : Bool) (buf : Nat → Nat) (s : GpuState) (pos : Nat),
        hdrType (buf pos) = 3 → ¬ KnownOpcode (hdrOpcode (buf pos)) →
        decodePacket rast buf s pos = .error (Err.unknownOpcode (hdrOpcode (buf pos)))) := by
  constructor
  · intro rast buf s pos h
    unfold decodePacket
    rw [if_neg h]
  · intro rast buf s pos h3 hk
    simp only [KnownOpcode, not_or] at hk
    obtain ⟨k1, k2, k3, k4, k5, k6, k7, k8, k9, k10, k11, k12, k13, k14⟩ := hk
    unfold decodePacket decodeType3
    rw [h3, if_neg k1, if_neg k2, if_neg k3, if_neg k4, if_neg k5, if_neg k6, if_neg k7,
      if_neg k8, if_neg k9, if_neg k10, if_neg k11, if_neg k12, if_neg k13, if_neg k14]
    rfl

/-- Witness for C6: a type 0 header and an unknown type 3 opcode are
both rejected. -/
theorem c6_unknown_fatal_witness :
    decodePacket true bufC6a initGpu 0 = .error (Err.invalidType (hdrType (bufC6a 0))) ∧
    decodePacket true bufC6b initGpu 0 = .error (Err.unknownOpcode (hdrOpcode (bufC6b 0))) :=
  ⟨c6_unknown_fatal.1 true bufC6a initGpu 0 (by decide),
   c6_unknown_fatal.2 true bufC6b initGpu 0 (by decide) (by decide)⟩

/-- Claim C9: a no-op packet without the flip marker (count field zero,
or a first payload word different from the marker) leaves the whole
state unchanged, register file and effect trace included, and consumes
its span; only the marker payload appends the single flip-boundary
signal, changing nothing else. -/
theorem c9_nop (rast : Bool) (buf : Nat → Nat) (s : GpuState) (pos : Nat)
    (h3 : hdrType (buf pos) = 3) (hop : hdrOpcode (buf pos) = opNop) :
    (hdrCount (buf pos) = 0 →
        decodePacket rast buf s pos = .ok (s, numWords (buf pos) + 1))
  ∧ (¬ hdrCount (buf pos) = 0 → ¬ buf (pos + 1) = patchedFlipMarker →
        decodePacket rast buf s pos = .ok (s, numWords (buf pos) + 1))
  ∧ (¬ hdrCount (buf pos) = 0 → buf (pos + 1) = patchedFlipMarker →
        decodePacket rast buf s pos =
          .ok (⟨s.regs, s.mem, s.effects ++ [Effect.flip]⟩, numWords (buf pos) + 1)) := by
  refine ⟨?_, ?_, ?_⟩
  · intro hc0
    unfold decodePacket decodeType3
    rw [h3, hop, if_pos hc0]
    rfl
  · intro hc0 hm
    unfold decodePacket decodeType3
    rw [h3, hop, if_neg hc0, if_neg hm]
    rfl
  · intro hc0 hm
    unfold decodePacket decodeType3
    rw [h3, hop, if_neg hc0, if_pos hm]
    rfl

/-- Witness for C9 at three concrete no-op packets: no payload, payload
without the marker, payload with the marker. -/
theorem c9_nop_witness :
    decodePacket true bufC9a initGpu 0 = .ok (initGpu, numWords (bufC9a 0) + 1) ∧
    decodePacket true bufC9b initGpu 0 = .ok (initGpu, numWords (bufC9b 0) + 1) ∧
    decodePacket true bufC9c initGpu 0 =
      .ok (⟨initGpu.regs, initGpu.mem, initGpu.effects ++ [Effect.flip]⟩,
           numWords (bufC9c 0) + 1) :=
  ⟨(c9_nop true bufC9a initGpu 0 (by decide) (by decide)).1 (by decide),
   (c9_nop true bufC9b initGpu 0 (by decide) (by decide)).2.1 (by decide) (by decide),
   (c9_nop true bufC9c initGpu 0 (by decide) (by decide)).2.2 (by decide) (by decide)⟩

/-- Claim C7: a wait-reg-mem packet is fatal unless the requesting
engine field is the graphics engine (the ASSERT of line 163); under
that precondition the handler polls the masked comparison predicate
over the successive memory observations, completing at the first
observation where it holds: a predicate true at the first evaluation
completes with zero sleeps, and whenever the loop completes after n
sleeps the observation at index n satisfies the predicate while every
earlier one does not. -/
theorem c7_wait_reg_mem :
    (∀ (rast : Bool) (buf : Nat → Nat) (s : GpuState) (pos : Nat),
        hdrType (buf pos) = 3 → hdrOpcode (buf pos) = opWaitRegMem →
        ¬ buf (pos + 1) / 256 % 4 = 0 →
        decodePacket rast buf s pos = .error Err.waitRegMemBadEngine)
  ∧ (∀ (w1 mask ref : Nat) (v : Nat) (vs : List Nat),
        w1 / 256 % 4 = 0 → wrmTest (w1 % 8) mask ref v = some true →
        waitRegMemHandler w1 mask ref (v :: vs) = .ok (some 0))
  ∧ (∀ (fn mask ref n : Nat) (vals : List Nat),
        waitLoop fn mask ref vals = some n →
        (∃ v, vals.get? n = some v ∧ wrmTest fn mask ref v = some true)
      ∧ (∀ i, i < n → ∃ v, vals.get? i = some v ∧ ¬ wrmTest fn mask ref v = some true)) := by
  refine ⟨?_, ?_, ?_⟩
  · intro rast buf s pos h3 hop he
    unfold decodePacket decodeType3
    rw [h3, hop, if_neg he]
    rfl
  · intro w1 mask ref v vs heng hv
    unfold waitRegMemHandler waitLoop
    rw [if_pos heng, if_pos hv]
  · intro fn mask ref n vals
    induction vals generalizing n with
    | nil =>
      intro h
      exact absurd h (by simp [waitLoop])
    | cons v vs ih =>
      intro h
      unfold waitLoop at h
      by_cases hv : wrmTest fn mask ref v = some true
      · rw [if_pos hv] at h
        injection h with h0
        subst h0
        refine ⟨⟨v, rfl, hv⟩, ?_⟩
        intro i hi
        exact absurd hi (Nat.not_lt_zero i)
      · rw [if_neg hv] at h
        cases hw : waitLoop fn mask ref vs with
        | none =>
          rw [hw] at h
          exact absurd h (by simp)
        | some m =>
          rw [hw] at h
          simp only [Option.map_some'] at h
          injection h with h0
          subst h0
          obtain ⟨h1, h2⟩ := ih m hw
          refine ⟨h1, ?_⟩
          intro i hi
          cases i with
          | zero => exact ⟨v, rfl, hv⟩
          | succ j => exact h2 j (by omega)

/-- Witness for C7: a wrong engine field is fatal; an always-true
predicate completes with zero sleeps; an equality predicate that first
holds at the second observation completes after exactly one sleep, the
first observation failing it. -/
theorem c7_wait_reg_mem_witness :
    decodePacket true bufC7 initGpu 0 = .error Err.waitRegMemBadEngine ∧
    waitRegMemHandler 0 0 0 [5] = .ok (some 0) ∧
    ((∃ v, [0, 7].get? 1 = some v ∧ wrmTest 3 255 7 v = some true)
      ∧ (∀ i, i < 1 → ∃ v, [0, 7].get? i = some v ∧ ¬ wrmTest 3 255 7 v = some true)) :=
  ⟨c7_wait_reg_mem.1 true bufC7 initGpu 0 (by decide) (by decide) (by decide),
   c7_wait_reg_mem.2.1 0 0 0 5 [] (by decide) (by decide),
   c7_wait_reg_mem.2.2 3 255 7 1 [0, 7] (by decide)⟩

/-- Claim C8: with the stop request latched, the stop-token wait at
line 27 is released regardless of queue contents, and the loop
iteration observes the stop request at its check points (the while
condition and the re-check after the wait) and terminates without
dequeuing, whatever buffers remain queued. -/
theorem c8_stop_never_dequeues :
    (∀ ring : List (List Nat), cvWaitDone true ring = true)
  ∧ (∀ ring : List (List Nat), processStep true ring = LoopStep.stopped) :=
  ⟨fun _ => rfl, fun _ => rfl⟩

/-- Claim C10: the decode loop terminates on every finite buffer whose
packets decode successfully: every successful packet decode advances
the cursor by at least two words (the header word count is at least
one), so a fuel of f iterations suffices whenever 8 f plus the bytes
already processed reaches the buffer length; in particular the fuel
ProcessCmdList runs with is always sufficient, and fuel exhaustion
(the none outcome) is unreachable. -/
theorem c10_terminates :
    (∀ (rast : Bool) (buf : Nat → Nat) (s s' : GpuState) (pos c : Nat),
        decodePacket rast buf s pos = .ok (s', c) → 2 ≤ c)
  ∧ (∀ (rast : Bool) (buf : Nat → Nat) (size fuel : Nat) (s : GpuState) (pos : Nat),
        size ≤ 8 * fuel + 4 * pos →
        ¬ processLoop rast buf size fuel s pos = none)
  ∧ (∀ (rast : Bool) (buf : Nat → Nat) (size : Nat) (s : GpuState),
        ¬ ProcessCmdList rast buf size s = none) := by
  have hstep : ∀ (rast : Bool) (buf : Nat → Nat) (s s' : GpuState) (pos c : Nat),
      decodePacket rast buf s pos = .ok (s', c) → 2 ≤ c := by
    intro rast buf s s' pos c h
    rw [decode_consumed h]
    have : 1 ≤ numWords (buf pos) := Nat.le_add_left 1 (hdrCount (buf pos))
    omega
  have hloop : ∀ (rast : Bool) (buf : Nat → Nat) (size fuel : Nat) (s : GpuState)
      (pos : Nat), size ≤ 8 * fuel + 4 * pos →
      ¬ processLoop rast buf size fuel s pos = none := by
    intro rast buf size fuel
    induction fuel with
    | zero =>
      intro s pos hb h
      unfold processLoop at h
      by_cases hc : 4 * pos < size
      · exact absurd hb (by omega)
      · rw [if_neg hc] at h
        exact absurd h (by simp)
    | succ fuel ih =>
      intro s pos hb h
      unfold processLoop at h
      by_cases hc : 4 * pos < size
      · rw [if_pos hc] at h
        cases hd : decodePacket rast buf s pos with
        | error e =>
          rw [hd] at h
          exact absurd h (by simp)
        | ok r =>
          obtain ⟨s2, c⟩ := r
          rw [hd] at h
          have hc2 : 2 ≤ c := hstep rast buf s s2 pos c hd
          exact ih s2 (pos + c) (by omega) h
      · rw [if_neg hc] at h
        exact absurd h (by simp)
  refine ⟨hstep, hloop, ?_⟩
  intro rast buf size s
  exact hloop rast buf size size s 0 (by omega)

/-- Witness for C10: a dispatch-direct decode advances by five words,
at least two; a four-packet no-op stream with fuel four does not
exhaust the fuel; ProcessCmdList never exhausts its fuel. -/
theorem c10_terminates_witness :
    2 ≤ 5 ∧ ¬ processLoop true bufC10 16 4 initGpu 0 = none ∧
    ¬ ProcessCmdList true bufC10 16 initGpu = none :=
  ⟨c10_terminates.1 true bufC4 initGpu initGpu 0 5 (by rfl),
   c10_terminates.2.1 true bufC10 16 4 initGpu 0 (by decide),
   c10_terminates.2.2 true bufC10 16 initGpu⟩

/-- Claim C1, counterexample: a four-byte buffer holding a single no-op
header whose packet span is eight bytes over-consumes the buffer, yet
ProcessCmdList accepts it without any error: the run ends in an ok
outcome with eight bytes consumed, so over-consumption is not a fatal
protocol violation in the code, the loop merely exits once the
processed bytes reach or exceed the length. -/
theorem c1_counterexample :
    ProcessCmdList true c1buf 4 initGpu = some (.ok (initGpu, 2)) ∧ ¬ 4 * 2 = 4 :=
  ⟨rfl, by decide⟩

/-- Claim C1, amended: the loop never stops while the processed bytes
are below the buffer length, and whenever the packet spans tile the
buffer length exactly (exactSpans) a successful run consumes exactly
the buffer length; a buffer whose spans over-shoot the length is
accepted silently with the cursor past the end. -/
theorem c1_exact_consumption :
    (∀ (rast : Bool) (buf : Nat → Nat) (size fuel : Nat) (s : GpuState) (pos : Nat)
        (s' : GpuState) (p : Nat),
        processLoop rast buf size fuel s pos = some (.ok (s', p)) → size ≤ 4 * p)
  ∧ (∀ (rast : Bool) (buf : Nat → Nat) (size fuel : Nat) (s : GpuState) (pos : Nat)
        (s' : GpuState) (p : Nat),
        exactSpans buf size fuel pos = true →
        processLoop rast buf size fuel s pos = some (.ok (s', p)) → 4 * p = size) := by
  constructor
  · intro rast buf size fuel
    induction fuel with
    | zero =>
      intro s pos s' p h
      unfold processLoop at h
      by_cases hc : 4 * pos < size
      · rw [if_pos hc] at h
        cases hd : decodePacket rast buf s pos with
        | error e =>
          rw [hd] at h
          exact absurd h (by simp)
        | ok r =>
          rw [hd] at h
          exact absurd h (by simp)
      · rw [if_neg hc] at h
        injection h with h1
        injection h1 with h2
        injection h2 with h2a h2b
        omega
    | succ fuel ih =>
      intro s pos s' p h
      unfold processLoop at h
      by_cases hc : 4 * pos < size
      · rw [if_pos hc] at h
        cases hd : decodePacket rast buf s pos with
        | error e =>
          rw [hd] at h
          exact absurd h (by simp)
        | ok r =>
          obtain ⟨s2, c⟩ := r
          rw [hd] at h
          exact ih s2 (pos + c) s' p h
      · rw [if_neg hc] at h
        injection h with h1
        injection h1 with h2
        injection h2 with h2a h2b
        omega
  · intro rast buf size fuel
    induction fuel with
    | zero =>
      intro s pos s' p hwf h
      unfold exactSpans at hwf
      unfold processLoop at h
      by_cases hc : 4 * pos < size
      · rw [if_pos hc] at hwf
        exact absurd hwf (by simp)
      · rw [if_neg hc] at hwf
        rw [if_neg hc] at h
        injection h with h1
        injection h1 with h2
        injection h2 with h2a h2b
        have hs : size = 4 * pos := by simpa using hwf
        omega
    | succ fuel ih =>
      intro s pos s' p hwf h
      unfold exactSpans at hwf
      unfold processLoop at h
      by_cases hc : 4 * pos < size
      · rw [if_pos hc] at hwf
        rw [if_pos hc] at h
        cases hd : decodePacket rast buf s pos with
        | error e =>
          rw [hd] at h
          exact absurd h (by simp)
        | ok r =>
          obtain ⟨s2, c⟩ := r
          rw [hd] at h
          have hcw : c = numWords (buf pos) + 1 := decode_consumed hd
          subst hcw
          exact ih s2 (pos + (numWords (buf pos) + 1)) s' p hwf h
      · rw [if_neg hc] at hwf
        rw [if_neg hc] at h
        injection h with h1
        injection h1 with h2
        injection h2 with h2a h2b
        have hs : size = 4 * pos := by simpa using hwf
        omega

/-- Witness for the amended C1: a sixteen-byte buffer of four no-op
packets tiles exactly and the run consumes exactly sixteen bytes. -/
theorem c1_exact_consumption_witness : 16 ≤ 4 * 4 ∧ 4 * 4 = 16 :=
  ⟨c1_exact_consumption.1 true bufC1w 16 16 initGpu 0 initGpu 4 (by rfl),
   c1_exact_consumption.2 true bufC1w 16 16 initGpu 0 initGpu 4 (by decide) (by rfl)⟩
